import Mathlib

/-!
Shallow embedding of `src/streamlit_app.py` (pac_stream): a concrete
compressive-strength comparison pipeline.  The app builds two 5-row feature
frames (user mix vs. a control mix with PAC sludge and chemical activator
zeroed), feeds both through a fitted scaler and regressor, clamps negative
predictions to 0, and computes a relative improvement percentage.

Real numbers of the program are modelled as `ℚ`.  Python dicts holding the
mix fields are modelled as association lists over the column type `Col`,
preserving insertion order and first-key-wins lookup, since the claims speak
about field ordering.  The serialized model and scaler are opaque batch
functions on lists of rows, exactly the contract the app relies on.
-/

/-- The ten feature columns of the trained model, named as in the source. -/
inductive Col where
  | cemento_kg_m3
  | pac_kg_m3
  | escoria_alto_horno_kg_m3
  | ceniza_volante_kg_m3
  | agua_kg_m3
  | superplastificante_kg_m3
  | agregado_grueso_kg_m3
  | agregado_fino_kg_m3
  | activador_quimico_pct
  | edad_curado_dias
  deriving DecidableEq, Repr

open Col

/-- `FEATURE_COLUMNS` from the source (line 29): the fixed column order the
DataFrames are built with before scaling and prediction. -/
def FEATURE_COLUMNS : List Col :=
  [cemento_kg_m3, pac_kg_m3, escoria_alto_horno_kg_m3, ceniza_volante_kg_m3,
   agua_kg_m3, superplastificante_kg_m3, agregado_grueso_kg_m3,
   agregado_fino_kg_m3, activador_quimico_pct, edad_curado_dias]

/-- The nine mix-design columns the user supplies (everything except the
curing age, which the pipeline adds itself). -/
def MIX_COLUMNS : List Col :=
  [cemento_kg_m3, pac_kg_m3, escoria_alto_horno_kg_m3, ceniza_volante_kg_m3,
   agua_kg_m3, superplastificante_kg_m3, agregado_grueso_kg_m3,
   agregado_fino_kg_m3, activador_quimico_pct]

/-- A Python dict from column names to numbers, as an insertion-ordered
association list (Python dicts preserve insertion order). -/
def Dict : Type := List (Col × ℚ)

/-- Dict lookup: first binding for the key wins (a Python dict has at most
one binding per key, so this is exact on dicts the program builds). -/
def dictLookup : Dict → Col → Option ℚ
  | [], _ => none
  | (k', v') :: rest, k => if k' = k then some v' else dictLookup rest k

/-- Python `d[k] = v`: overwrite in place if the key exists (keeping its
position), append otherwise. -/
def dictSet : Dict → Col → ℚ → Dict
  | [], k, v => [(k, v)]
  | (k', v') :: rest, k, v =>
      if k' = k then (k, v) :: rest else (k', v') :: dictSet rest k v

/-- The record of nine mix quantities the sidebar collects (`user_inputs`,
source lines 48-61). -/
structure MixInputs where
  cemento_kg_m3 : ℚ
  pac_kg_m3 : ℚ
  activador_quimico_pct : ℚ
  escoria_alto_horno_kg_m3 : ℚ
  ceniza_volante_kg_m3 : ℚ
  agua_kg_m3 : ℚ
  superplastificante_kg_m3 : ℚ
  agregado_grueso_kg_m3 : ℚ
  agregado_fino_kg_m3 : ℚ
  deriving DecidableEq, Repr

/-- The dict literal built by `user_inputs` (source lines 50-60).  Note its
insertion order: the activator percentage is the THIRD key, not the ninth,
so the dict order differs from `FEATURE_COLUMNS`. -/
def user_inputs (m : MixInputs) : Dict :=
  [(cemento_kg_m3, m.cemento_kg_m3),
   (pac_kg_m3, m.pac_kg_m3),
   (activador_quimico_pct, m.activador_quimico_pct),
   (escoria_alto_horno_kg_m3, m.escoria_alto_horno_kg_m3),
   (ceniza_volante_kg_m3, m.ceniza_volante_kg_m3),
   (agua_kg_m3, m.agua_kg_m3),
   (superplastificante_kg_m3, m.superplastificante_kg_m3),
   (agregado_grueso_kg_m3, m.agregado_grueso_kg_m3),
   (agregado_fino_kg_m3, m.agregado_fino_kg_m3)]

/-- The fixed curing ages `edades_curado = [7, 14, 28, 56, 90]`
(source line 70). -/
def edades_curado : List ℚ := [7, 14, 28, 56, 90]

/-- One dict per curing age: `fila = input_data.copy(); fila[edad] = edad`
(source lines 73-77 and 85-89). -/
def mezclaList (d : Dict) : List Dict :=
  edades_curado.map (fun edad => dictSet d edad_curado_dias edad)

/-- `pd.DataFrame(rows, columns=FEATURE_COLUMNS)` (source lines 78, 90):
each dict becomes a row holding, per feature column in the fixed order, the
dict's value for that column — or `none` where pandas would fill NaN for a
missing key. -/
def toFrame (d : Dict) : List (List (Option ℚ)) :=
  (mezclaList d).map (fun fila => FEATURE_COLUMNS.map (dictLookup fila))

/-- Collects a list of optional values, failing if any is missing. -/
def allSome {α : Type} : List (Option α) → Option (List α)
  | [] => some []
  | none :: _ => none
  | some x :: rest => (allSome rest).map (fun xs => x :: xs)

/-- The scaler's input validation: `scaler.transform` rejects a frame
containing NaN (raising before any prediction), so a frame with a missing
field yields no result.  A fully populated frame passes through as plain
rows of numbers. -/
def validate (rows : List (List (Option ℚ))) : Option (List (List ℚ)) :=
  allSome (rows.map allSome)

/-- `inputs_sin_pac` (source lines 81-83): copy the input dict and force the
PAC sludge and chemical activator fields to zero. -/
def inputs_sin_pac (d : Dict) : Dict :=
  dictSet (dictSet d pac_kg_m3 0) activador_quimico_pct 0

/-- The opaque serialized artifacts: a fitted scaler (rows to rows) and a
fitted regressor (rows to one predicted strength per row), exactly the
surface the app calls (`scaler.transform`, `model.predict`). -/
structure Assets where
  transform : List (List ℚ) → List (List ℚ)
  predict : List (List ℚ) → List ℚ

/-- numpy `.clip(min=0)` applied elementwise to a prediction vector
(source lines 93-94): any value below the floor 0 is replaced by 0. -/
def clip0 (xs : List ℚ) : List ℚ := xs.map (fun x => if x < 0 then 0 else x)

/-- `epsilon = 1e-6` (source line 97). -/
def epsilon : ℚ := 1 / 1000000

/-- The improvement formula applied elementwise on line 98:
`(treatment − control) / (control + epsilon) * 100`. -/
def mejoraFormula (t c : ℚ) : ℚ := (t - c) / (c + epsilon) * 100

/-- One row of `resultados_df` (source lines 103-108): curing age, treatment
strength, control strength, improvement percentage. -/
structure ResultRow where
  edad : ℚ
  conPac : ℚ
  sinPac : ℚ
  variacion : ℚ
  deriving DecidableEq, Repr

/-- Zips the four result columns into rows, exactly as the result DataFrame
pairs them up positionally. -/
def buildResults : List ℚ → List ℚ → List ℚ → List ℚ → List ResultRow
  | e :: es, t :: ts, c :: cs, v :: vs =>
      ⟨e, t, c, v⟩ :: buildResults es ts cs vs
  | _, _, _, _ => []

/-- The whole prediction block (source lines 70-108) run on one input dict:
build the treatment and control frames over the five curing ages, scale and
predict both batches, clamp at zero, compute the improvement percentages and
package the result table.  `none` models the run aborting with an exception
(a missing field surfacing as NaN rejected by the scaler). -/
def runPipeline (A : Assets) (d : Dict) : Option (List ResultRow) :=
  (validate (toFrame d)).bind fun dfU =>
    (validate (toFrame (inputs_sin_pac d))).bind fun dfC =>
      let predU := clip0 (A.predict (A.transform dfU))
      let predC := clip0 (A.predict (A.transform dfC))
      let mejora := List.zipWith mejoraFormula predU predC
      some (buildResults edades_curado predU predC mejora)

/-- The ten feature values, in `FEATURE_COLUMNS` order, of a treatment row
for mix `m` at age `e`. -/
def treatmentRow (m : MixInputs) (e : ℚ) : List ℚ :=
  [m.cemento_kg_m3, m.pac_kg_m3, m.escoria_alto_horno_kg_m3,
   m.ceniza_volante_kg_m3, m.agua_kg_m3, m.superplastificante_kg_m3,
   m.agregado_grueso_kg_m3, m.agregado_fino_kg_m3,
   m.activador_quimico_pct, e]

/-- The ten feature values, in `FEATURE_COLUMNS` order, of a control row for
mix `m` at age `e`: PAC and activator forced to zero, all else kept. -/
def controlRow (m : MixInputs) (e : ℚ) : List ℚ :=
  [m.cemento_kg_m3, 0, m.escoria_alto_horno_kg_m3,
   m.ceniza_volante_kg_m3, m.agua_kg_m3, m.superplastificante_kg_m3,
   m.agregado_grueso_kg_m3, m.agregado_fino_kg_m3, 0, e]

/-! ## Artifact loading (`load_assets`, source lines 14-26) and the
`if model and scaler:` gate (line 63) -/

/-- The call surface of the serialized regressor. -/
def ModelFun : Type := List (List ℚ) → List ℚ

/-- The call surface of the serialized scaler. -/
def ScalerFun : Type := List (List ℚ) → List (List ℚ)

/-- One artifact file as `joblib.load` finds it: absent (the load raises
`FileNotFoundError`), present but unreadable or corrupt (the load raises
`PermissionError` or an unpickling error — exceptions the source does NOT
catch), or readable, deserializing to its object. -/
inductive FileState (α : Type) where
  | absent
  | unreadable
  | readable (a : α)

/-- The working directory as seen by `joblib.load`. -/
structure FS where
  modelo_file : FileState ModelFun
  escalador_file : FileState ScalerFun

/-- What one `load_assets` call produces when it returns: the
`(model, scaler)` pair, together with the list of `st.error` diagnostics it
showed on the way (source lines 17-24). -/
def LoadOutcome : Type := (Option ModelFun × Option ScalerFun) × List String

/-- The two `st.error` diagnostics of the `except FileNotFoundError`
branch (source lines 22-23). -/
def loadErrors : List String :=
  ["Error: No se encontraron los archivos modelo_concreto_unificado.pkl o escalador_concreto_unificado.pkl.",
   "Asegurate de que los archivos esten en la misma carpeta que app.py y que los nombres no contengan espacios."]

/-- `load_assets` (source lines 15-24), for one actual disk read.  The
model file is read first, then the scaler.  `except FileNotFoundError`
catches exactly the absent-file error: that branch shows the two `st.error`
diagnostics and returns `(None, None)`.  Any other loading error — an
unreadable or corrupt file — is uncaught and propagates out of
`load_assets`, modelled as `none`: no return value and no custom
diagnostic. -/
def load_assets (fs : FS) : Option LoadOutcome :=
  match fs.modelo_file, fs.escalador_file with
  | .readable m, .readable s => some ((some m, some s), [])
  | .absent, _ => some ((none, none), loadErrors)
  | .unreadable, _ => none
  | .readable _, .absent => some ((none, none), loadErrors)
  | .readable _, .unreadable => none

/-- The `if model and scaler:` gate (source line 63): the input panel and
the calculation button — hence any pipeline run — exist only when both
loaded objects are not `None` (Python truthiness: `None` is falsy, a loaded
estimator object is truthy). -/
def appRuns (mo : Option ModelFun) (so : Option ScalerFun) : Bool :=
  mo.isSome && so.isSome

/-- Modelled from the spec: the `@st.cache_resource` decorator on
`load_assets` (its implementation lives in the streamlit library, not in
this repository).  Per the spec, a successful load is "cached for the
process lifetime; repeated calls return the same instances without
re-reading disk".  One call: with an empty cache it performs the disk read
(counted `1`) and caches whatever `load_assets` returns; if the wrapped
function instead raises (`load_assets fs = none`), nothing is cached and
the cache stays empty.  With a filled cache it returns the cached outcome
with no read. -/
def cacheStep (fs : FS) :
    Option LoadOutcome → Option LoadOutcome × Option LoadOutcome × Nat
  | none => (load_assets fs, load_assets fs, 1)
  | some r => (some r, some r, 0)

/-- Modelled from the spec: `n` successive calls of the cached
`load_assets`, starting from cache state `c`; returns the outcome observed
by each caller (`none` = the call raised) and the total number of disk
reads performed. -/
def cacheRun (fs : FS) :
    Nat → Option LoadOutcome → List (Option LoadOutcome) × Nat
  | 0, _ => ([], 0)
  | Nat.succ n, c =>
      let s := cacheStep fs c
      let rest := cacheRun fs n s.2.1
      (s.1 :: rest.1, s.2.2 + rest.2)

/-! ## Concrete fixtures used by the witnesses -/

/-- Trivial artifacts: identity scaler, regressor predicting the row sum. -/
def idAssets : Assets := ⟨id, fun rs => rs.map List.sum⟩

/-- The second feature (the PAC column, index 1 of a feature row). -/
def pacOf : List ℚ → ℚ
  | _ :: x :: _ => x
  | _ => 0

/-- Artifacts whose regressor returns the (scaled) PAC column. -/
def pacAssets : Assets := ⟨id, fun rs => rs.map pacOf⟩

/-- The all-zero mix. -/
def mix0 : MixInputs := ⟨0, 0, 0, 0, 0, 0, 0, 0, 0⟩

/-- The example mix of the spec scenario: cement 350, PAC 50, activator 3%,
water 170, coarse 1050, fine 750. -/
def mixEx : MixInputs := ⟨350, 50, 3, 0, 0, 170, 0, 1050, 750⟩

/-- A mix whose only nonzero field is the PAC dosage `q`. -/
def mixPac (q : ℚ) : MixInputs := ⟨0, q, 0, 0, 0, 0, 0, 0, 0⟩

/-- What `runPipeline idAssets (user_inputs mix0)` returns. -/
def rows0 : List ResultRow :=
  [⟨7, 7, 7, 0⟩, ⟨14, 14, 14, 0⟩, ⟨28, 28, 28, 0⟩, ⟨56, 56, 56, 0⟩,
   ⟨90, 90, 90, 0⟩]

/-- What `runPipeline pacAssets (user_inputs mixEx)` returns. -/
def rowsPac : List ResultRow :=
  [⟨7, 50, 0, 5000000000⟩, ⟨14, 50, 0, 5000000000⟩, ⟨28, 50, 0, 5000000000⟩,
   ⟨56, 50, 0, 5000000000⟩, ⟨90, 50, 0, 5000000000⟩]

/-! ## Helper lemmas -/

theorem dictLookup_dictSet (k k' : Col) (v : ℚ) :
    ∀ d : Dict,
      dictLookup (dictSet d k v) k' = if k' = k then some v else dictLookup d k'
  | [] => by
      by_cases h : k' = k
      · simp [dictSet, dictLookup, h]
      · simp [dictSet, dictLookup, h, Ne.symm h]
  | (a, b) :: rest => by
      by_cases h1 : a = k
      · subst h1
        by_cases h2 : k' = a
        · subst h2; simp [dictSet, dictLookup]
        · simp [dictSet, dictLookup, h2, Ne.symm h2]
      · by_cases h2 : a = k'
        · subst h2
          have h1' : ¬(a = k) := h1
          simp [dictSet, dictLookup, h1, fun h : a = k => h1 h]
        · simp [dictSet, dictLookup, h1, h2, dictLookup_dictSet k k' v rest]

theorem allSome_eq_none {α : Type} {l : List (Option α)} (h : none ∈ l) :
    allSome l = none := by
  induction l with
  | nil => cases h
  | cons o rest ih =>
      cases o with
      | none => rfl
      | some x =>
          rcases List.mem_cons.1 h with h | h
          · cases h
          · simp [allSome, ih h]

theorem mem_buildResults_conPac :
    ∀ (es ts cs ms : List ℚ) (r : ResultRow),
      r ∈ buildResults es ts cs ms → r.conPac ∈ ts
  | e :: es, t :: ts, c :: cs, v :: vs, r, h => by
      rcases List.mem_cons.1 h with h | h
      · subst h; exact List.mem_cons_self _ _
      · exact List.mem_cons_of_mem _ (mem_buildResults_conPac es ts cs vs r h)
  | [], _, _, _, r, h => absurd h (List.not_mem_nil r)
  | _ :: _, [], _, _, r, h => absurd h (List.not_mem_nil r)
  | _ :: _, _ :: _, [], _, r, h => absurd h (List.not_mem_nil r)
  | _ :: _, _ :: _, _ :: _, [], r, h => absurd h (List.not_mem_nil r)

theorem mem_buildResults_sinPac :
    ∀ (es ts cs ms : List ℚ) (r : ResultRow),
      r ∈ buildResults es ts cs ms → r.sinPac ∈ cs
  | e :: es, t :: ts, c :: cs, v :: vs, r, h => by
      rcases List.mem_cons.1 h with h | h
      · subst h; exact List.mem_cons_self _ _
      · exact List.mem_cons_of_mem _ (mem_buildResults_sinPac es ts cs vs r h)
  | [], _, _, _, r, h => absurd h (List.not_mem_nil r)
  | _ :: _, [], _, _, r, h => absurd h (List.not_mem_nil r)
  | _ :: _, _ :: _, [], _, r, h => absurd h (List.not_mem_nil r)
  | _ :: _, _ :: _, _ :: _, [], r, h => absurd h (List.not_mem_nil r)

theorem mem_buildResults_var :
    ∀ (es ts cs ms : List ℚ) (r : ResultRow),
      r ∈ buildResults es ts cs ms → r.variacion ∈ ms
  | e :: es, t :: ts, c :: cs, v :: vs, r, h => by
      rcases List.mem_cons.1 h with h | h
      · subst h; exact List.mem_cons_self _ _
      · exact List.mem_cons_of_mem _ (mem_buildResults_var es ts cs vs r h)
  | [], _, _, _, r, h => absurd h (List.not_mem_nil r)
  | _ :: _, [], _, _, r, h => absurd h (List.not_mem_nil r)
  | _ :: _, _ :: _, [], _, r, h => absurd h (List.not_mem_nil r)
  | _ :: _, _ :: _, _ :: _, [], r, h => absurd h (List.not_mem_nil r)

theorem mem_buildResults_zipWith (f : ℚ → ℚ → ℚ) :
    ∀ (es ts cs : List ℚ) (r : ResultRow),
      r ∈ buildResults es ts cs (List.zipWith f ts cs) →
        r.variacion = f r.conPac r.sinPac
  | e :: es, t :: ts, c :: cs, r, h => by
      rcases List.mem_cons.1 h with h | h
      · subst h; rfl
      · exact mem_buildResults_zipWith f es ts cs r h
  | [], _, _, r, h => absurd h (List.not_mem_nil r)
  | _ :: _, [], _, r, h => absurd h (List.not_mem_nil r)
  | _ :: _, _ :: _, [], r, h => absurd h (List.not_mem_nil r)

theorem buildResults_map_edad :
    ∀ es ts cs ms : List ℚ,
      es.length ≤ ts.length → es.length ≤ cs.length → es.length ≤ ms.length →
      (buildResults es ts cs ms).map ResultRow.edad = es
  | [], _, _, _, _, _, _ => rfl
  | e :: es, t :: ts, c :: cs, v :: vs, h1, h2, h3 => by
      simpa [buildResults] using
        buildResults_map_edad es ts cs vs (by simpa using h1) (by simpa using h2)
          (by simpa using h3)
  | e :: es, [], _, _, h1, _, _ => by simp at h1
  | e :: es, _ :: _, [], _, _, h2, _ => by simp at h2
  | e :: es, _ :: _, _ :: _, [], _, _, h3 => by simp at h3

theorem mem_clip0 {x : ℚ} {xs : List ℚ} (h : x ∈ clip0 xs) : 0 ≤ x := by
  rcases List.mem_map.1 h with ⟨y, _, rfl⟩
  by_cases hy : y < 0 <;> simp [hy]
  linarith

theorem zipWith_self_eq_map (f : ℚ → ℚ → ℚ) :
    ∀ l : List ℚ, List.zipWith f l l = l.map fun x => f x x
  | [] => rfl
  | x :: xs => by simp [zipWith_self_eq_map f xs]

theorem epsilon_pos : (0 : ℚ) < epsilon := by norm_num [epsilon]

theorem mejoraFormula_zero (t : ℚ) : mejoraFormula t 0 = t * 100000000 := by
  rw [mejoraFormula, epsilon, sub_zero, zero_add, div_eq_mul_inv]
  norm_num
  ring

/-- Everything `runPipeline` guarantees about a member of its result table:
the improvement field is the formula applied to the row's own clamped
strengths, and both strengths are clamped nonnegative. -/
theorem runPipeline_mem_spec (A : Assets) (d : Dict) (rows : List ResultRow)
    (r : ResultRow) (hrun : runPipeline A d = some rows) (hr : r ∈ rows) :
    r.variacion = mejoraFormula r.conPac r.sinPac ∧
      0 ≤ r.conPac ∧ 0 ≤ r.sinPac := by
  unfold runPipeline at hrun
  rcases hU : validate (toFrame d) with _ | dfU
  · rw [hU] at hrun; simp at hrun
  rcases hC : validate (toFrame (inputs_sin_pac d)) with _ | dfC
  · rw [hU, hC] at hrun; simp at hrun
  rw [hU, hC] at hrun
  simp only [Option.bind] at hrun
  rw [Option.some.injEq] at hrun
  subst hrun
  refine ⟨mem_buildResults_zipWith _ _ _ _ _ hr, ?_, ?_⟩
  · exact mem_clip0 (mem_buildResults_conPac _ _ _ _ _ hr)
  · exact mem_clip0 (mem_buildResults_sinPac _ _ _ _ _ hr)

/-- If a dict binds each of the nine mix columns (in whatever insertion
order) to the values of mix `m`, the DataFrame built from it comes out in
the fixed `FEATURE_COLUMNS` order: one fully-populated row per curing age,
each equal to `treatmentRow m`. -/
theorem frame_of_lookups (m : MixInputs) (d : Dict)
    (h1 : dictLookup d cemento_kg_m3 = some m.cemento_kg_m3)
    (h2 : dictLookup d pac_kg_m3 = some m.pac_kg_m3)
    (h3 : dictLookup d escoria_alto_horno_kg_m3 = some m.escoria_alto_horno_kg_m3)
    (h4 : dictLookup d ceniza_volante_kg_m3 = some m.ceniza_volante_kg_m3)
    (h5 : dictLookup d agua_kg_m3 = some m.agua_kg_m3)
    (h6 : dictLookup d superplastificante_kg_m3 = some m.superplastificante_kg_m3)
    (h7 : dictLookup d agregado_grueso_kg_m3 = some m.agregado_grueso_kg_m3)
    (h8 : dictLookup d agregado_fino_kg_m3 = some m.agregado_fino_kg_m3)
    (h9 : dictLookup d activador_quimico_pct = some m.activador_quimico_pct) :
    validate (toFrame d) = some (edades_curado.map (treatmentRow m)) := by
  simp [validate, toFrame, mezclaList, edades_curado, FEATURE_COLUMNS,
        dictLookup_dictSet, h1, h2, h3, h4, h5, h6, h7, h8, h9, allSome,
        treatmentRow]

/-! ## The claims -/

/-- C1.  For every input mix, the control frame the pipeline scales and
predicts has, in every one of its 5 rows, the PAC-sludge and
chemical-activator fields equal to 0 — whatever the input held there — and
the other 7 mix fields exactly equal to the input mix's values
(`controlRow` lists the fields in `FEATURE_COLUMNS` order). -/
theorem control_mix_zeroes (m : MixInputs) :
    validate (toFrame (inputs_sin_pac (user_inputs m))) =
      some (edades_curado.map (controlRow m)) := rfl

/-- C2.  Every row of the result table carries as its improvement
percentage exactly `(treatment − control) / (control + epsilon) * 100`
computed from the row's own (already clamped) strengths, and since the
clamped control strength is nonnegative and `epsilon = 1e-6 > 0`, the
divisor is strictly positive, so the division is always defined. -/
theorem mejora_formula (A : Assets) (d : Dict) (rows : List ResultRow)
    (r : ResultRow) (hrun : runPipeline A d = some rows) (hr : r ∈ rows) :
    r.variacion = (r.conPac - r.sinPac) / (r.sinPac + epsilon) * 100 ∧
      0 ≤ r.sinPac ∧ 0 < r.sinPac + epsilon := by
  obtain ⟨hv, _, hc⟩ := runPipeline_mem_spec A d rows r hrun hr
  refine ⟨hv, hc, ?_⟩
  have := epsilon_pos
  linarith

/-- Evaluation fixture: the pipeline on the trivial artifacts and the
all-zero mix produces `rows0`. -/
theorem runPipeline_id_mix0 :
    runPipeline idAssets (user_inputs mix0) = some rows0 := by
  norm_num [runPipeline, validate, toFrame, mezclaList, edades_curado,
    FEATURE_COLUMNS, user_inputs, mix0, inputs_sin_pac, dictSet, dictLookup,
    allSome, clip0, idAssets, mejoraFormula, epsilon, buildResults, rows0]

/-- Evaluation fixture: the pipeline on the PAC-column artifacts and the
spec's example mix produces `rowsPac`. -/
theorem runPipeline_pac_mixEx :
    runPipeline pacAssets (user_inputs mixEx) = some rowsPac := by
  norm_num [runPipeline, validate, toFrame, mezclaList, edades_curado,
    FEATURE_COLUMNS, user_inputs, mixEx, inputs_sin_pac, dictSet, dictLookup,
    allSome, clip0, pacAssets, pacOf, mejoraFormula, epsilon, buildResults,
    rowsPac]

theorem mejora_formula_witness :
    (⟨7, 7, 7, 0⟩ : ResultRow).variacion =
        ((⟨7, 7, 7, 0⟩ : ResultRow).conPac - (⟨7, 7, 7, 0⟩ : ResultRow).sinPac) /
          ((⟨7, 7, 7, 0⟩ : ResultRow).sinPac + epsilon) * 100 ∧
      0 ≤ (⟨7, 7, 7, 0⟩ : ResultRow).sinPac ∧
      0 < (⟨7, 7, 7, 0⟩ : ResultRow).sinPac + epsilon :=
  mejora_formula idAssets (user_inputs mix0) rows0 ⟨7, 7, 7, 0⟩
    runPipeline_id_mix0 (by decide)

/-- The external contract of the serialized artifacts (spec section 6):
the scaler maps a batch to a batch of the same size, the regressor returns
one scalar strength per row. -/
def LengthOk (A : Assets) : Prop :=
  (∀ xs, (A.transform xs).length = xs.length) ∧
    (∀ xs, (A.predict xs).length = xs.length)

/-- C3.  For every valid input mix, one pipeline run succeeds and produces
exactly 5 result rows, one per curing age in {7, 14, 28, 56, 90}, in exactly
that order (given artifacts honouring the batch-size contract). -/
theorem run_produces_five_ordered (A : Assets) (m : MixInputs)
    (hA : LengthOk A) :
    (runPipeline A (user_inputs m)).isSome = true ∧
      ∀ rows, runPipeline A (user_inputs m) = some rows →
        rows.length = 5 ∧ rows.map ResultRow.edad = [7, 14, 28, 56, 90] := by
  obtain ⟨hT, hP⟩ := hA
  have hU : validate (toFrame (user_inputs m)) =
      some (edades_curado.map (treatmentRow m)) := rfl
  have hC : validate (toFrame (inputs_sin_pac (user_inputs m))) =
      some (edades_curado.map (controlRow m)) := rfl
  have lU : (clip0 (A.predict (A.transform (edades_curado.map (treatmentRow m))))).length = 5 := by
    simp [clip0, hP, hT, edades_curado]
  have lC : (clip0 (A.predict (A.transform (edades_curado.map (controlRow m))))).length = 5 := by
    simp [clip0, hP, hT, edades_curado]
  have hrun : runPipeline A (user_inputs m) =
      some (buildResults edades_curado
        (clip0 (A.predict (A.transform (edades_curado.map (treatmentRow m)))))
        (clip0 (A.predict (A.transform (edades_curado.map (controlRow m)))))
        (List.zipWith mejoraFormula
          (clip0 (A.predict (A.transform (edades_curado.map (treatmentRow m)))))
          (clip0 (A.predict (A.transform (edades_curado.map (controlRow m))))))) := by
    rw [runPipeline, hU, hC]
    rfl
  refine ⟨by simp [hrun], ?_⟩
  intro rows h
  rw [hrun, Option.some.injEq] at h
  subst h
  have hedad := buildResults_map_edad edades_curado
    (clip0 (A.predict (A.transform (edades_curado.map (treatmentRow m)))))
    (clip0 (A.predict (A.transform (edades_curado.map (controlRow m)))))
    (List.zipWith mejoraFormula
      (clip0 (A.predict (A.transform (edades_curado.map (treatmentRow m)))))
      (clip0 (A.predict (A.transform (edades_curado.map (controlRow m))))))
    (by rw [lU]; rfl) (by rw [lC]; rfl)
    (by rw [List.length_zipWith, lU, lC]; rfl)
  constructor
  · have := congrArg List.length hedad
    simpa [edades_curado] using this
  · simpa [edades_curado] using hedad

theorem run_produces_five_ordered_witness :
    (runPipeline idAssets (user_inputs mix0)).isSome = true ∧
      (rows0.length = 5 ∧ rows0.map ResultRow.edad = [7, 14, 28, 56, 90]) :=
  ⟨(run_produces_five_ordered idAssets mix0
      ⟨fun xs => rfl, fun xs => by simp [idAssets]⟩).1,
   (run_produces_five_ordered idAssets mix0
      ⟨fun xs => rfl, fun xs => by simp [idAssets]⟩).2 rows0 runPipeline_id_mix0⟩

/-- C4.  Whatever insertion order the input record was built in — the
source dict lists the activator third — every row handed to
`scaler.transform` and `model.predict`, for both the treatment and the
control batch, carries its 10 fields in exactly the `FEATURE_COLUMNS`
order: [cement, PAC, slag, fly-ash, water, superplasticizer, coarse
aggregate, fine aggregate, activator-pct, curing age]. -/
theorem feature_order_fixed (m : MixInputs) (d : Dict)
    (h1 : dictLookup d cemento_kg_m3 = some m.cemento_kg_m3)
    (h2 : dictLookup d pac_kg_m3 = some m.pac_kg_m3)
    (h3 : dictLookup d escoria_alto_horno_kg_m3 = some m.escoria_alto_horno_kg_m3)
    (h4 : dictLookup d ceniza_volante_kg_m3 = some m.ceniza_volante_kg_m3)
    (h5 : dictLookup d agua_kg_m3 = some m.agua_kg_m3)
    (h6 : dictLookup d superplastificante_kg_m3 = some m.superplastificante_kg_m3)
    (h7 : dictLookup d agregado_grueso_kg_m3 = some m.agregado_grueso_kg_m3)
    (h8 : dictLookup d agregado_fino_kg_m3 = some m.agregado_fino_kg_m3)
    (h9 : dictLookup d activador_quimico_pct = some m.activador_quimico_pct) :
    validate (toFrame d) = some (edades_curado.map (treatmentRow m)) ∧
      validate (toFrame (inputs_sin_pac d)) =
        some (edades_curado.map (controlRow m)) := by
  refine ⟨frame_of_lookups m d h1 h2 h3 h4 h5 h6 h7 h8 h9, ?_⟩
  exact frame_of_lookups
    ⟨m.cemento_kg_m3, 0, 0, m.escoria_alto_horno_kg_m3,
     m.ceniza_volante_kg_m3, m.agua_kg_m3, m.superplastificante_kg_m3,
     m.agregado_grueso_kg_m3, m.agregado_fino_kg_m3⟩
    (inputs_sin_pac d)
    (by simp [inputs_sin_pac, dictLookup_dictSet, h1])
    (by simp [inputs_sin_pac, dictLookup_dictSet])
    (by simp [inputs_sin_pac, dictLookup_dictSet, h3])
    (by simp [inputs_sin_pac, dictLookup_dictSet, h4])
    (by simp [inputs_sin_pac, dictLookup_dictSet, h5])
    (by simp [inputs_sin_pac, dictLookup_dictSet, h6])
    (by simp [inputs_sin_pac, dictLookup_dictSet, h7])
    (by simp [inputs_sin_pac, dictLookup_dictSet, h8])
    (by simp [inputs_sin_pac, dictLookup_dictSet])

/-- A dict with the same bindings as `user_inputs mixEx` but inserted in
reversed order. -/
def dictScrambled : Dict :=
  [(agregado_fino_kg_m3, 750), (agregado_grueso_kg_m3, 1050),
   (superplastificante_kg_m3, 0), (agua_kg_m3, 170),
   (ceniza_volante_kg_m3, 0), (escoria_alto_horno_kg_m3, 0),
   (activador_quimico_pct, 3), (pac_kg_m3, 50), (cemento_kg_m3, 350)]

theorem feature_order_fixed_witness :
    validate (toFrame dictScrambled) =
        some (edades_curado.map (treatmentRow mixEx)) ∧
      validate (toFrame (inputs_sin_pac dictScrambled)) =
        some (edades_curado.map (controlRow mixEx)) :=
  feature_order_fixed mixEx dictScrambled rfl rfl rfl rfl rfl rfl rfl rfl rfl

/-- C5.  Every result row of any pipeline run carries nonnegative treatment
and control strengths: negative raw predictions are floored to 0 before the
result (and the improvement) is computed. -/
theorem predictions_nonneg (A : Assets) (d : Dict) (rows : List ResultRow)
    (r : ResultRow) (hrun : runPipeline A d = some rows) (hr : r ∈ rows) :
    0 ≤ r.conPac ∧ 0 ≤ r.sinPac :=
  (runPipeline_mem_spec A d rows r hrun hr).2

theorem predictions_nonneg_witness :
    0 ≤ (⟨7, 50, 0, 5000000000⟩ : ResultRow).conPac ∧
      0 ≤ (⟨7, 50, 0, 5000000000⟩ : ResultRow).sinPac :=
  predictions_nonneg pacAssets (user_inputs mixEx) rowsPac
    ⟨7, 50, 0, 5000000000⟩ runPipeline_pac_mixEx (by decide)

/-- C6.  In every result row the improvement percentage is strictly
positive exactly when the clamped treatment strength strictly exceeds the
clamped control strength: the divisor `control + epsilon` is strictly
positive, so dividing does not change the sign of `treatment − control`. -/
theorem mejora_sign_iff (A : Assets) (d : Dict) (rows : List ResultRow)
    (r : ResultRow) (hrun : runPipeline A d = some rows) (hr : r ∈ rows) :
    0 < r.variacion ↔ r.sinPac < r.conPac := by
  obtain ⟨hv, hct, hcs⟩ := runPipeline_mem_spec A d rows r hrun hr
  have hd : 0 < r.sinPac + epsilon := by
    have := epsilon_pos
    linarith
  rw [hv]
  simp only [mejoraFormula]
  rw [div_mul_eq_mul_div, div_pos_iff]
  constructor
  · rintro (⟨ha, _⟩ | ⟨_, hb⟩)
    · nlinarith
    · linarith
  · intro h
    exact Or.inl ⟨by nlinarith, hd⟩

theorem mejora_sign_iff_witness :
    (0 < (⟨7, 50, 0, 5000000000⟩ : ResultRow).variacion ↔
      (⟨7, 50, 0, 5000000000⟩ : ResultRow).sinPac <
        (⟨7, 50, 0, 5000000000⟩ : ResultRow).conPac) :=
  mejora_sign_iff pacAssets (user_inputs mixEx) rowsPac
    ⟨7, 50, 0, 5000000000⟩ runPipeline_pac_mixEx (by decide)

/-- Cached calls after a filled cache never read disk again and always
return the cached outcome. -/
theorem cacheRun_some (fs : FS) (r : LoadOutcome) :
    ∀ n, cacheRun fs n (some r) = (List.replicate n (some r), 0)
  | 0 => rfl
  | Nat.succ n => by
      simp [cacheRun, cacheStep, cacheRun_some fs r n, List.replicate]

/-- The deployment where the model file is present but unreadable (and the
scaler file absent). -/
def fsUnreadable : FS := ⟨FileState.unreadable, FileState.absent⟩

/-- C7 counterexample.  With an unreadable (rather than absent) model
file, `except FileNotFoundError` does not fire: `load_assets` ends in an
uncaught exception (`none`) — no `(None, None)` return, no user-visible
diagnostic — and since `st.cache_resource` caches nothing when the wrapped
function raises, two successive calls perform two disk reads: the load IS
re-attempted, contradicting the claimed surfaced-diagnostic, cache-once,
no-retry behavior for unreadable files. -/
theorem artifact_unreadable_uncaught :
    load_assets fsUnreadable = none ∧
      (cacheRun fsUnreadable 2 none).2 = 2 :=
  ⟨rfl, rfl⟩

/-- C7 (amended).  When the failing artifact is absent — the model file is
absent, or the model file loads and the scaler file is absent — the raised
`FileNotFoundError` is caught: `load_assets` returns the `(None, None)`
failure pair after surfacing the user-visible diagnostics (nonempty error
list), the `if model and scaler:` gate is false so no pipeline run is ever
attempted, and — per the spec's cache-once contract — any number of calls
performs at most one disk read, every caller observing the same outcome
(no retry).  An unreadable file is outside this amended claim: there the
error is uncaught, nothing is cached and no diagnostic is shown. -/
theorem artifact_absent_behavior (fs : FS)
    (h : fs.modelo_file = FileState.absent ∨
      ∃ m, fs.modelo_file = FileState.readable m ∧
        fs.escalador_file = FileState.absent) :
    load_assets fs = some ((none, none), loadErrors) ∧
      loadErrors ≠ [] ∧
      appRuns none none = false ∧
      ∀ n, (cacheRun fs n none).2 ≤ 1 ∧
        ∀ r ∈ (cacheRun fs n none).1, r = load_assets fs := by
  have hload : load_assets fs = some ((none, none), loadErrors) := by
    obtain ⟨mf, sf⟩ := fs
    rcases h with h | ⟨m, hm, hs⟩
    · cases h
      rfl
    · cases hm
      cases hs
      rfl
  refine ⟨hload, by simp [loadErrors], by simp [appRuns], ?_⟩
  intro n
  cases n with
  | zero =>
      exact ⟨by simp [cacheRun], by intro r hr; simp [cacheRun] at hr⟩
  | succ k =>
      have hcr := cacheRun_some fs ((none, none), loadErrors) k
      constructor
      · simp [cacheRun, cacheStep, hload, hcr]
      · intro r hr
        simp [cacheRun, cacheStep, hload, hcr, List.mem_replicate] at hr
        rcases hr with hr | hr
        · rw [hload]
          exact hr
        · rw [hload]
          exact hr.2

/-- The deployment with both artifact files missing. -/
def fsAbsent : FS := ⟨FileState.absent, FileState.absent⟩

theorem artifact_absent_behavior_witness :
    load_assets fsAbsent = some ((none, none), loadErrors) ∧
      (cacheRun fsAbsent 3 none).2 ≤ 1 :=
  ⟨(artifact_absent_behavior fsAbsent (Or.inl rfl)).1,
   ((artifact_absent_behavior fsAbsent (Or.inl rfl)).2.2.2 3).1⟩

/-- C8.  If the input record is missing any of the 9 required mix fields,
the run fails (the missing value surfaces as NaN in the DataFrame and the
scaler rejects it) and no partial result is returned. -/
theorem missing_field_fails (A : Assets) (d : Dict) (c : Col)
    (hc : c ∈ MIX_COLUMNS) (hmiss : dictLookup d c = none) :
    runPipeline A d = none := by
  have hne : c ≠ edad_curado_dias := by
    intro h
    subst h
    revert hc
    decide
  have hcF : c ∈ FEATURE_COLUMNS := by
    have hsub : ∀ x ∈ MIX_COLUMNS, x ∈ FEATURE_COLUMNS := by decide
    exact hsub c hc
  have hrow : dictLookup (dictSet d edad_curado_dias 7) c = none := by
    rw [dictLookup_dictSet]
    simp [hne, hmiss]
  have hall :
      allSome (FEATURE_COLUMNS.map (dictLookup (dictSet d edad_curado_dias 7))) =
        none :=
    allSome_eq_none (List.mem_map.2 ⟨c, hcF, hrow⟩)
  have hval : validate (toFrame d) = none := by
    simp only [FEATURE_COLUMNS, List.map] at hall
    simp only [validate, toFrame, mezclaList, edades_curado, List.map]
    rw [hall]
    rfl
  simp [runPipeline, hval]

theorem missing_field_fails_witness :
    runPipeline idAssets ([] : Dict) = none :=
  missing_field_fails idAssets [] cemento_kg_m3 (by decide) rfl

/-- C9.  For a mix whose PAC dosage and activator percentage are already 0,
the control dict coincides with the input dict, so the treatment frame is
identical to the control frame and every result row's improvement
percentage is exactly 0 — for every model and scaler. -/
theorem no_pac_no_improvement (A : Assets) (m : MixInputs)
    (hp : m.pac_kg_m3 = 0) (ha : m.activador_quimico_pct = 0) :
    toFrame (inputs_sin_pac (user_inputs m)) = toFrame (user_inputs m) ∧
      ∀ rows, runPipeline A (user_inputs m) = some rows →
        ∀ r ∈ rows, r.variacion = 0 := by
  have hd : inputs_sin_pac (user_inputs m) = user_inputs m := by
    simp [inputs_sin_pac, user_inputs, dictSet, hp, ha]
  refine ⟨by rw [hd], ?_⟩
  intro rows hrun r hr
  unfold runPipeline at hrun
  rw [hd] at hrun
  rcases hV : validate (toFrame (user_inputs m)) with _ | df
  · rw [hV] at hrun
    simp at hrun
  · rw [hV] at hrun
    simp only [Option.bind] at hrun
    rw [Option.some.injEq] at hrun
    subst hrun
    have hvar := mem_buildResults_var _ _ _ _ r hr
    rw [zipWith_self_eq_map] at hvar
    rcases List.mem_map.1 hvar with ⟨t, _, hEq⟩
    rw [← hEq]
    simp [mejoraFormula, sub_self]

theorem no_pac_no_improvement_witness :
    toFrame (inputs_sin_pac (user_inputs mix0)) = toFrame (user_inputs mix0) ∧
      (⟨7, 7, 7, 0⟩ : ResultRow).variacion = 0 :=
  ⟨(no_pac_no_improvement idAssets mix0 rfl rfl).1,
   (no_pac_no_improvement idAssets mix0 rfl rfl).2 rows0 runPipeline_id_mix0
     ⟨7, 7, 7, 0⟩ (by decide)⟩

/-- C10.  Whenever a result row's clamped control strength is exactly 0,
its improvement percentage is the clamped treatment strength divided by
`1e-6` times 100, i.e. treatment × 10^8; and the improvement field is
unbounded above at the public interface — for every bound there is a run
whose result exceeds it (no upper clamp exists). -/
theorem zero_control_scaling :
    (∀ (A : Assets) (d : Dict) (rows : List ResultRow) (r : ResultRow),
        runPipeline A d = some rows → r ∈ rows → r.sinPac = 0 →
          r.variacion = r.conPac * 100000000) ∧
      ∀ B : ℚ, ∃ (A : Assets) (d : Dict) (rows : List ResultRow)
        (r : ResultRow),
          runPipeline A d = some rows ∧ r ∈ rows ∧ B < r.variacion := by
  constructor
  · intro A d rows r hrun hr hs
    obtain ⟨hv, _, _⟩ := runPipeline_mem_spec A d rows r hrun hr
    rw [hv, hs, mejoraFormula_zero]
  · intro B
    have h0 : (0 : ℚ) ≤ max B 0 := le_max_right B 0
    have hB : B ≤ max B 0 := le_max_left B 0
    have hq : ¬(max B 0 + 1 < (0 : ℚ)) := by linarith
    refine ⟨pacAssets, user_inputs (mixPac (max B 0 + 1)),
      [⟨7, max B 0 + 1, 0, mejoraFormula (max B 0 + 1) 0⟩,
       ⟨14, max B 0 + 1, 0, mejoraFormula (max B 0 + 1) 0⟩,
       ⟨28, max B 0 + 1, 0, mejoraFormula (max B 0 + 1) 0⟩,
       ⟨56, max B 0 + 1, 0, mejoraFormula (max B 0 + 1) 0⟩,
       ⟨90, max B 0 + 1, 0, mejoraFormula (max B 0 + 1) 0⟩],
      ⟨7, max B 0 + 1, 0, mejoraFormula (max B 0 + 1) 0⟩, ?_, ?_, ?_⟩
    · norm_num [runPipeline, validate, toFrame, mezclaList, edades_curado,
        FEATURE_COLUMNS, user_inputs, mixPac, inputs_sin_pac, dictSet,
        dictLookup, allSome, clip0, pacAssets, pacOf, buildResults, hq]
    · exact List.mem_cons_self _ _
    · show B < mejoraFormula (max B 0 + 1) 0
      rw [mejoraFormula_zero]
      nlinarith

theorem zero_control_scaling_witness :
    (⟨7, 50, 0, 5000000000⟩ : ResultRow).variacion =
      (⟨7, 50, 0, 5000000000⟩ : ResultRow).conPac * 100000000 :=
  zero_control_scaling.1 pacAssets (user_inputs mixEx) rowsPac
    ⟨7, 50, 0, 5000000000⟩ runPipeline_pac_mixEx (by decide) rfl
